import Mathlib

/-!
Shallow embedding of the crypto tracker backend (`src/app.py`): the
fetch-and-cache gateway `fetch_data_from_api`, the chart renderer
`create_chart_image`, and the endpoint handlers that the verified
properties mention (`get_global_market_data`, `get_coin_price_chart`,
`get_coin_market_cap_chart`).

Modelling conventions:
- JSON values are the inductive `Json`; numbers are modelled as `Int`
  (no verified property depends on fractional arithmetic).
- Wall-clock times are `Nat` seconds.  `fetch_data_from_api` reads the
  clock twice in the source (`time.time()` at the staleness check on
  line 35 and again when storing on line 48), so the model takes two
  time arguments `now` and `now2`.
- The upstream HTTP interaction is an oracle argument `HttpResponse`
  describing what `requests.get` + `raise_for_status` + `.json()` would
  yield if a network call is made on this invocation.
- Side effects are explicit: the returned `FetchResult` carries the new
  cache, the list of network requests issued (with the timeout argument
  passed to `requests.get`; `none` means no timeout argument) and the
  list of `time.sleep` durations executed.
- Python exceptions that escape a function are a constructor of the
  result type, not an option: `FetchOutcome.connErr` is the re-raised
  builtin `ConnectionError`, `FetchOutcome.exc` the re-raised generic
  `Exception`.
-/

/-- JSON-like structured data, as produced by `response.json()`. -/
inductive Json where
  | null
  | bool (b : Bool)
  | num (n : Int)
  | str (s : String)
  | arr (elems : List Json)
  | obj (fields : List (String × Json))

/-- The process-wide cache `CACHE`: a mapping from string keys to a
stored pair of payload and fetch timestamp (line 23 of the source). -/
def Cache : Type := String → Option (Json × Nat)

/-- The empty cache, the initial state of `CACHE`. -/
def cEmpty : Cache := fun _ => none

/-- `CACHE_EXPIRATION_TIME = 300` seconds (line 24). -/
def CACHE_EXPIRATION_TIME : Nat := 300

/-- Base URL of the upstream API (line 18). -/
def COINGECKO_BASE_URL : String := "https://api.coingecko.com/api/v3"

/-- One call to `requests.get`: the URL and the `timeout` keyword
argument (`none` when the source passes no timeout). -/
structure NetRequest where
  url : String
  timeout : Option Nat

/-- Oracle for the upstream interaction of a single network call,
covering `requests.get` + `raise_for_status` + `.json()`:
`ok data` is a non-raising status whose body parses as `data`;
`badBody m` is a non-raising status whose body fails to parse (the
`.json()` call raises with message `m`);
`httpError c` means `raise_for_status` raises an `HTTPError` with
status code `c`; `connError m` is a `requests` connection error. -/
inductive HttpResponse where
  | ok (data : Json)
  | badBody (msg : String)
  | httpError (code : Nat)
  | connError (msg : String)

/-- How `fetch_data_from_api` finishes: a normal return carrying a
payload, a raised `ConnectionError`, or a raised generic `Exception`. -/
inductive FetchOutcome where
  | value (data : Json)
  | connErr (msg : String)
  | exc (msg : String)

/-- Result of one call to `fetch_data_from_api`, with all side effects
made explicit. -/
structure FetchResult where
  outcome : FetchOutcome
  cache : Cache
  netCalls : List NetRequest
  sleeps : List Nat

/-- Lines 33-37 of the source: `if cache_key and cache_key in CACHE:`
followed by the freshness test `(time.time() - timestamp) <
CACHE_EXPIRATION_TIME`.  A Python `cache_key` of `None` is `none`; the
empty string is falsy in Python, hence the `key = ""` test.  Returns
the cached payload exactly when the call is served from the cache.
Note on `Nat` subtraction: for the clock running backwards
(`now < timestamp`) truncated subtraction gives `0 < 300`, matching the
Python float comparison, which is also true there. -/
def cacheLookupFresh (cache_key : Option String) (now : Nat) (cache : Cache) : Option Json :=
  match cache_key with
  | none => none
  | some key =>
    if key = "" then none
    else match cache key with
      | none => none
      | some (cached_data, timestamp) =>
        if now - timestamp < CACHE_EXPIRATION_TIME then some cached_data else none

/-- Lines 47-48 of the source: `if cache_key: CACHE[cache_key] = (data,
time.time())`.  Again the empty string is falsy and stores nothing. -/
def storeCache (cache_key : Option String) (data : Json) (t : Nat) (cache : Cache) : Cache :=
  match cache_key with
  | none => cache
  | some key =>
    if key = "" then cache
    else fun k => if k = key then some (data, t) else cache k

/-- The user-facing rate-limit message returned on HTTP 429 (line 53). -/
def rateLimitMsg : String := "API Hız Limiti Aşıldı. Lütfen bir süre sonra tekrar deneyin."

/-- Helper for the JSON error objects the source builds. -/
def errObj (msg : String) : Json := Json.obj [("error", Json.str msg)]

/-- Lines 28-62 of the source, `fetch_data_from_api(url, cache_key)`.
`now` is the clock at the staleness check, `now2` the clock at the
store; `net` is the oracle for the upstream interaction (consulted only
on a cache miss).  The branches follow the source line by line:
fresh cache hit returns the cached payload with no network activity;
otherwise `time.sleep(1)` then `requests.get(url)` with no timeout
argument; a 2xx body that parses is stored (line 47-48) and returned;
a body that fails to parse falls into the generic `except Exception`
handler which re-raises; `HTTPError` with code 429 returns the
rate-limit error object without touching the cache; any other
`HTTPError` and any connection error re-raise as `ConnectionError`. -/
def fetch_data_from_api (url : String) (cache_key : Option String)
    (now now2 : Nat) (net : HttpResponse) (cache : Cache) : FetchResult :=
  match cacheLookupFresh cache_key now cache with
  | some cached_data => ⟨.value cached_data, cache, [], []⟩
  | none =>
    let req : NetRequest := ⟨url, none⟩
    match net with
    | .ok data =>
        ⟨.value data, storeCache cache_key data now2 cache, [req], [1]⟩
    | .badBody m =>
        ⟨.exc ("Beklenmedik bir hata oluştu: " ++ m), cache, [req], [1]⟩
    | .httpError code =>
        if code = 429 then
          ⟨.value (errObj rateLimitMsg), cache, [req], [1]⟩
        else
          ⟨.connErr ("API isteği sırasında HTTP hatası oluştu: " ++ toString code),
            cache, [req], [1]⟩
    | .connError _ =>
        ⟨.connErr "API\x27ye bağlanırken bir hata oluştu. İnternet bağlantınızı kontrol edin.",
          cache, [req], [1]⟩

/-! ## Python semantics helpers used by the endpoint handlers -/

/-- Python truthiness of a JSON value (`if not prices:` and friends). -/
def jsonTruthy : Json → Bool
  | .null => false
  | .bool b => b
  | .num n => n != 0
  | .str s => s != ""
  | .arr xs => !xs.isEmpty
  | .obj fs => !fs.isEmpty

/-- Whether `needle` occurs as a substring of `hay`, the Python
semantics of `needle in hay` for strings. -/
def strContainsSub (hay needle : String) : Bool :=
  (hay.splitOn needle).length > 1

/-- Whether a JSON value equals the Python string `s` (used for list
membership: `"error" in some_list`). -/
def isStrVal (s : String) : Json → Bool
  | .str t => t == s
  | _ => false

/-- Python `needle in j` for a JSON value `j`: key membership for
dicts, element membership for lists, substring for strings; `none`
models the `TypeError` raised for the remaining types, which the
generic `except Exception` handlers of the endpoints catch. -/
def pyIn (needle : String) : Json → Option Bool
  | .obj fields => some (fields.any (fun f => f.1 == needle))
  | .arr xs => some (xs.any (isStrVal needle))
  | .str s => some (strContainsSub s needle)
  | _ => none

/-- Association-list lookup for parsed JSON objects (parsed Python
dicts have unique keys). -/
def lookupField (fields : List (String × Json)) (k : String) : Option Json :=
  match fields with
  | [] => none
  | (k0, v) :: rest => if k0 = k then some v else lookupField rest k

/-- Python `d.get(k)`: `some (some v)` when the key is present,
`some none` when the dict lacks the key (Python `None`), and `none`
modelling the `AttributeError` raised when `d` is not a dict. -/
def pyGet (j : Json) (k : String) : Option (Option Json) :=
  match j with
  | .obj fields => some (lookupField fields k)
  | _ => none

/-- Python `d[k]` for string keys: `none` models the `KeyError` or
`TypeError` raised when the key is absent or `d` is not a dict. -/
def pyIndex (j : Json) (k : String) : Option Json :=
  match j with
  | .obj fields => lookupField fields k
  | _ => none

/-- Python numeric coercion as used by `p[0] / 1000`: ints pass
through and bools act as 0 or 1; anything else raises `TypeError`. -/
def pyNumeric : Json → Option Int
  | .num n => some n
  | .bool b => some (if b then 1 else 0)
  | _ => none

/-- Python `str.capitalize()`: first character uppercased, the rest
lowercased (ASCII model of the Unicode rule). -/
def pyCapitalize (s : String) : String :=
  match s.data with
  | [] => ""
  | c :: rest => String.mk (c.toUpper :: rest.map Char.toLower)

/-! ## Chart renderer -/

/-- Outcome of one fallible matplotlib operation, as an oracle. -/
inductive StepResult where
  | ok
  | raises (msg : String)

/-- Oracle for the two fallible drawing operations of
`create_chart_image`: `ax.plot` and `plt.savefig`.  The styling calls
between them do not raise for any input. -/
structure RenderOracle where
  plotResult : StepResult
  savefigResult : StepResult

/-- The base64-encoded PNG the renderer produces, represented
symbolically by the data that determines it (the source encodes the
actual PNG bytes; no verified property inspects the bytes). Dates are
the epoch values handed to `ax.plot`. -/
structure EncodedImage where
  dates : List Int
  values : List Json
  title : String
  y_label : String
  color : String
  show_grid : Bool

/-- How `create_chart_image` finishes: the encoded image, or a raised
exception propagating out of a drawing operation. -/
inductive RenderOutcome where
  | image (img : EncodedImage)
  | raised (msg : String)

/-- Result of one call to `create_chart_image`.  `figClosed` records
whether `plt.close(fig)` ran on the figure that `plt.subplots`
allocated during the call (the allocation itself always happens). -/
structure RenderResult where
  outcome : RenderOutcome
  figClosed : Bool

/-- Lines 64-98 of the source, `create_chart_image`.  The source
allocates the figure (`plt.subplots`, line 69), plots, styles, saves
the figure into a buffer, base64-encodes it, and only then calls
`plt.close(fig)` (line 97).  There is no `try`/`finally`: if `ax.plot`
or `plt.savefig` raises, the exception propagates before the close
runs, so the figure is not released on those paths.  There is also no
guard on the number of points: empty `dates`/`values` flow straight
into `ax.plot`, which accepts them. -/
def create_chart_image (dates : List Int) (values : List Json)
    (title y_label color : String) (show_grid : Bool)
    (oracle : RenderOracle) : RenderResult :=
  match oracle.plotResult with
  | .raises m => ⟨.raised m, false⟩
  | .ok =>
    match oracle.savefigResult with
    | .raises m => ⟨.raised m, false⟩
    | .ok => ⟨.image ⟨dates, values, title, y_label, color, show_grid⟩, true⟩

/-! ## Endpoint handlers -/

/-- Body of an HTTP response from the backend: a JSON value, or the
chart payload `jsonify({"chart": graphic_base64})`. -/
inductive RespBody where
  | json (j : Json)
  | chart (img : EncodedImage)

/-- Result of one endpoint handler invocation: HTTP status, body, the
cache after the call, the network requests issued, and whether the
chart renderer was invoked during the call. -/
structure EndpointResult where
  status : Nat
  body : RespBody
  cache : Cache
  netCalls : List NetRequest
  renderCalled : Bool

/-- The generic failure message of `get_global_market_data`. -/
def globalFailMsg : String := "Global piyasa verileri çekilirken bir hata oluştu."

/-- URL built by `get_global_market_data` (line 116). -/
def globalUrl : String := COINGECKO_BASE_URL ++ "/global"

/-- Line 124-126: extract the two fields of the success shape; any
`KeyError`/`TypeError` on the way is `none` and falls into the generic
handler. -/
def extractGlobal (data : Json) : Option Json := do
  let d ← pyIndex data "data"
  let mc ← pyIndex d "total_market_cap"
  let mcu ← pyIndex mc "usd"
  let tv ← pyIndex d "total_volume"
  let tvu ← pyIndex tv "usd"
  pure (Json.obj [("total_market_cap_usd", mcu), ("total_volume_24h_usd", tvu)])

/-- Lines 120-126 of `get_global_market_data`, the branch where the
gateway returned a payload normally: check `if "error" in data` (an
`in` on a non-iterable raises and is caught by the generic handler),
then shape the success payload. -/
def global_value_respond (data : Json) (cch : Cache) (nc : List NetRequest) : EndpointResult :=
  match pyIn "error" data with
  | some true => ⟨500, .json data, cch, nc, false⟩
  | some false =>
    match extractGlobal data with
    | some body => ⟨200, .json body, cch, nc, false⟩
    | none => ⟨500, .json (errObj globalFailMsg), cch, nc, false⟩
  | none => ⟨500, .json (errObj globalFailMsg), cch, nc, false⟩

/-- Lines 118-131 of `get_global_market_data` after the gateway call;
`ConnectionError` and generic exceptions both surface as 500. -/
def global_respond (r : FetchResult) : EndpointResult :=
  match r.outcome with
  | .value data => global_value_respond data r.cache r.netCalls
  | .connErr m => ⟨500, .json (errObj m), r.cache, r.netCalls, false⟩
  | .exc _ => ⟨500, .json (errObj globalFailMsg), r.cache, r.netCalls, false⟩

/-- Lines 111-131 of the source, the `/global_market_data` handler. -/
def get_global_market_data (now now2 : Nat) (net : HttpResponse) (cache : Cache) : EndpointResult :=
  global_respond (fetch_data_from_api globalUrl (some "global_data") now now2 net cache)

/-- The accepted `days` values of the chart endpoints (lines 205 and
243).  The source list also contains the string `"max"`, which the
`<int:days>` route converter makes unreachable: an int never equals a
str in Python, so membership reduces to the integer values. -/
def validDays : List Int := [1, 7, 14, 30, 90, 180, 365]

/-- The 400 message of both chart endpoints (lines 206 and 244). -/
def invalidDaysMsg : String :=
  "Geçersiz gün sayısı. 1, 7, 14, 30, 90, 180, 365 veya \x27max\x27 olmalı."

/-- Upstream locator of both chart endpoints (lines 208 and 246). -/
def marketChartUrl (coin_id : String) (days : Int) : String :=
  COINGECKO_BASE_URL ++ "/coins/" ++ coin_id ++ "/market_chart?vs_currency=usd&days="
    ++ toString days ++ "&interval=daily"

/-- Cache key of `/coin_chart` (line 209). -/
def priceChartKey (coin_id : String) (days : Int) : String :=
  "price_chart_" ++ coin_id ++ "_" ++ toString days

/-- Cache key of `/market_cap_chart` (line 247). -/
def mcapChartKey (coin_id : String) (days : Int) : String :=
  "market_cap_chart_" ++ coin_id ++ "_" ++ toString days

/-- One point of the series comprehension: `p[0]` must be numeric
(`datetime.fromtimestamp(p[0] / 1000)`), `p[1]` is passed to the
renderer as is; any indexing or type failure raises and is `none`. -/
def seriesPoint (p : Json) : Option (Int × Json) :=
  match p with
  | .arr (t :: v :: _) => (pyNumeric t).map (fun n => (n, v))
  | _ => none

/-- Lines 220-221 (and 258-259): the two comprehensions building
`dates` and `values`; `none` models any exception raised while
iterating, caught by the surrounding generic handler. -/
def extractSeries (series : Json) : Option (List Int × List Json) :=
  match series with
  | .arr ps => (ps.mapM seriesPoint).map (fun l => (l.map Prod.fst, l.map Prod.snd))
  | _ => none

/-- The generic 500 message of the price-chart endpoint (line 236). -/
def priceChartFailMsg : String := "Fiyat grafiği oluşturulurken bir hata oluştu."

/-- The 404 message of the price-chart endpoint (line 218). -/
def noPriceDataMsg (coin_id : String) (days : Int) : String :=
  "No price data available for " ++ coin_id ++ " for the last " ++ toString days ++ " days."

/-- Title of the price chart (line 223; the `days != "max"` test is
always true for the int route parameter). -/
def priceChartTitle (coin_id : String) (days : Int) : String :=
  pyCapitalize coin_id ++ " Fiyat Grafiği (" ++ toString days ++ " Gün)"

/-- Lines 210-236 of `get_coin_price_chart` after the gateway call.
`market_data.get("prices")` raising (non-dict payload) and a failing
comprehension both land in the generic 500 handler; `if not prices:`
yields the 404 both when `get` returned Python `None` and when the
value is falsy (empty list).  A renderer exception is caught by the
`except` clauses on lines 232-236, each answering 500 (the model uses
the generic message for both). -/
def price_chart_value_respond (coin_id : String) (days : Int) (market_data : Json)
    (cch : Cache) (nc : List NetRequest) (oracle : RenderOracle) : EndpointResult :=
  match pyIn "error" market_data with
  | some true => ⟨500, .json market_data, cch, nc, false⟩
  | some false =>
    match pyGet market_data "prices" with
    | none => ⟨500, .json (errObj priceChartFailMsg), cch, nc, false⟩
    | some none =>
        ⟨404, .json (errObj (noPriceDataMsg coin_id days)), cch, nc, false⟩
    | some (some prices) =>
      if jsonTruthy prices then
        match extractSeries prices with
        | none => ⟨500, .json (errObj priceChartFailMsg), cch, nc, false⟩
        | some (dates, values) =>
          let rr := create_chart_image dates values (priceChartTitle coin_id days)
            "Fiyat (USD)" "#00d8ff" true oracle
          match rr.outcome with
          | .image img => ⟨200, .chart img, cch, nc, true⟩
          | .raised _ => ⟨500, .json (errObj priceChartFailMsg), cch, nc, true⟩
      else
        ⟨404, .json (errObj (noPriceDataMsg coin_id days)), cch, nc, false⟩
  | none => ⟨500, .json (errObj priceChartFailMsg), cch, nc, false⟩

/-- Dispatch of `get_coin_price_chart` on how the gateway call ended
(the `try` body and the `except` clauses of lines 210-236). -/
def price_chart_respond (coin_id : String) (days : Int) (r : FetchResult)
    (oracle : RenderOracle) : EndpointResult :=
  match r.outcome with
  | .value market_data => price_chart_value_respond coin_id days market_data r.cache r.netCalls oracle
  | .connErr m => ⟨500, .json (errObj m), r.cache, r.netCalls, false⟩
  | .exc _ => ⟨500, .json (errObj priceChartFailMsg), r.cache, r.netCalls, false⟩

/-- Lines 200-236 of the source, the `/coin_chart/<coin_id>/<int:days>`
handler: validate `days` before any gateway call, then fetch and
respond. -/
def get_coin_price_chart (coin_id : String) (days : Int) (now now2 : Nat)
    (net : HttpResponse) (cache : Cache) (oracle : RenderOracle) : EndpointResult :=
  if days ∈ validDays then
    price_chart_respond coin_id days
      (fetch_data_from_api (marketChartUrl coin_id days)
        (some (priceChartKey coin_id days)) now now2 net cache) oracle
  else
    ⟨400, .json (errObj invalidDaysMsg), cache, [], false⟩

/-- The generic 500 message of the market-cap endpoint (line 273). -/
def mcapChartFailMsg : String := "Piyasa değeri grafiği oluşturulurken bir hata oluştu."

/-- The 404 message of the market-cap endpoint (line 256). -/
def noMcapDataMsg (coin_id : String) (days : Int) : String :=
  "No market cap data available for " ++ coin_id ++ " for the last " ++ toString days ++ " days."

/-- Title of the market-cap chart (line 261). -/
def mcapChartTitle (coin_id : String) (days : Int) : String :=
  pyCapitalize coin_id ++ " Piyasa Değeri Grafiği (" ++ toString days ++ " Gün)"

/-- Lines 248-274 of `get_coin_market_cap_chart` after the gateway
call; identical in shape to the price-chart responder with the
`market_caps` field. -/
def mcap_chart_value_respond (coin_id : String) (days : Int) (market_data : Json)
    (cch : Cache) (nc : List NetRequest) (oracle : RenderOracle) : EndpointResult :=
  match pyIn "error" market_data with
  | some true => ⟨500, .json market_data, cch, nc, false⟩
  | some false =>
    match pyGet market_data "market_caps" with
    | none => ⟨500, .json (errObj mcapChartFailMsg), cch, nc, false⟩
    | some none =>
        ⟨404, .json (errObj (noMcapDataMsg coin_id days)), cch, nc, false⟩
    | some (some market_caps) =>
      if jsonTruthy market_caps then
        match extractSeries market_caps with
        | none => ⟨500, .json (errObj mcapChartFailMsg), cch, nc, false⟩
        | some (dates, values) =>
          let rr := create_chart_image dates values (mcapChartTitle coin_id days)
            "Piyasa Değeri (USD)" "#ff6b6b" true oracle
          match rr.outcome with
          | .image img => ⟨200, .chart img, cch, nc, true⟩
          | .raised _ => ⟨500, .json (errObj mcapChartFailMsg), cch, nc, true⟩
      else
        ⟨404, .json (errObj (noMcapDataMsg coin_id days)), cch, nc, false⟩
  | none => ⟨500, .json (errObj mcapChartFailMsg), cch, nc, false⟩

/-- Dispatch of `get_coin_market_cap_chart` on how the gateway call
ended (the `try` body and the `except` clauses of lines 248-274). -/
def mcap_chart_respond (coin_id : String) (days : Int) (r : FetchResult)
    (oracle : RenderOracle) : EndpointResult :=
  match r.outcome with
  | .value market_data => mcap_chart_value_respond coin_id days market_data r.cache r.netCalls oracle
  | .connErr m => ⟨500, .json (errObj m), r.cache, r.netCalls, false⟩
  | .exc _ => ⟨500, .json (errObj mcapChartFailMsg), r.cache, r.netCalls, false⟩

/-- Lines 238-274 of the source, the
`/market_cap_chart/<coin_id>/<int:days>` handler. -/
def get_coin_market_cap_chart (coin_id : String) (days : Int) (now now2 : Nat)
    (net : HttpResponse) (cache : Cache) (oracle : RenderOracle) : EndpointResult :=
  if days ∈ validDays then
    mcap_chart_respond coin_id days
      (fetch_data_from_api (marketChartUrl coin_id days)
        (some (mcapChartKey coin_id days)) now now2 net cache) oracle
  else
    ⟨400, .json (errObj invalidDaysMsg), cache, [], false⟩

/-! ## Helper lemmas about the gateway -/

/-- A fresh cache hit makes `fetch_data_from_api` return immediately. -/
theorem fetch_hit_eq (url : String) (cache_key : Option String) (now now2 : Nat)
    (net : HttpResponse) (cache : Cache) (d : Json)
    (h : cacheLookupFresh cache_key now cache = some d) :
    fetch_data_from_api url cache_key now now2 net cache = ⟨.value d, cache, [], []⟩ := by
  unfold fetch_data_from_api
  rw [h]

/-- On a cache miss with a successful upstream response the gateway
stores and returns the payload. -/
theorem fetch_miss_ok_eq (url : String) (cache_key : Option String) (now now2 : Nat)
    (cache : Cache) (d : Json)
    (h : cacheLookupFresh cache_key now cache = none) :
    fetch_data_from_api url cache_key now now2 (.ok d) cache =
      ⟨.value d, storeCache cache_key d now2 cache, [⟨url, none⟩], [1]⟩ := by
  unfold fetch_data_from_api
  rw [h]

/-- One gateway call performs at most one network request. -/
theorem fetch_netCalls_length_le_one (url : String) (cache_key : Option String)
    (now now2 : Nat) (net : HttpResponse) (cache : Cache) :
    (fetch_data_from_api url cache_key now now2 net cache).netCalls.length ≤ 1 := by
  unfold fetch_data_from_api
  cases cacheLookupFresh cache_key now cache <;> cases net <;> simp
  split <;> simp

/-- Storing under a nonempty key makes that key map to the new pair. -/
theorem storeCache_self (K : String) (hK : K ≠ "") (d : Json) (t : Nat) (cache : Cache) :
    storeCache (some K) d t cache K = some (d, t) := by
  simp only [storeCache]
  rw [if_neg hK, if_pos rfl]

/-- Storing touches no key other than the provided one. -/
theorem storeCache_frame (cache_key : Option String) (d : Json) (t : Nat) (cache : Cache)
    (k : String) (h : cache_key ≠ some k) :
    storeCache cache_key d t cache k = cache k := by
  match cache_key, h with
  | none, _ => rfl
  | some key, h =>
    simp only [storeCache]
    split
    · rfl
    · show (if k = key then some (d, t) else cache k) = cache k
      rw [if_neg (fun hk => h (by rw [hk]))]

/-- A present, fresh entry under a nonempty key is served. -/
theorem lookupFresh_of_fresh (K : String) (now : Nat) (cache : Cache) (d : Json) (t : Nat)
    (hK : K ≠ "") (hc : cache K = some (d, t)) (hf : now - t < CACHE_EXPIRATION_TIME) :
    cacheLookupFresh (some K) now cache = some d := by
  simp only [cacheLookupFresh]
  rw [if_neg hK, hc]
  show (if now - t < CACHE_EXPIRATION_TIME then some d else none) = some d
  rw [if_pos hf]

/-- A stale-or-absent entry is not served. -/
theorem lookupFresh_of_stale (K : String) (now : Nat) (cache : Cache)
    (hK : K ≠ "")
    (hstale : ∀ d t, cache K = some (d, t) → CACHE_EXPIRATION_TIME ≤ now - t) :
    cacheLookupFresh (some K) now cache = none := by
  simp only [cacheLookupFresh]
  rw [if_neg hK]
  cases hc : cache K with
  | none => rfl
  | some p =>
    obtain ⟨d, t⟩ := p
    show (if now - t < CACHE_EXPIRATION_TIME then some d else none) = none
    rw [if_neg (not_lt.mpr (hstale d t hc))]

/-- On a cache miss the gateway sleeps exactly 1 second and issues
exactly one `requests.get(url)` with no timeout argument, whatever the
upstream does. -/
theorem fetch_miss_effects (url : String) (cache_key : Option String) (now now2 : Nat)
    (net : HttpResponse) (cache : Cache)
    (h : cacheLookupFresh cache_key now cache = none) :
    (fetch_data_from_api url cache_key now now2 net cache).netCalls = [⟨url, none⟩] ∧
    (fetch_data_from_api url cache_key now now2 net cache).sleeps = [1] := by
  unfold fetch_data_from_api
  rw [h]
  cases net
  case ok d => exact ⟨rfl, rfl⟩
  case badBody m => exact ⟨rfl, rfl⟩
  case httpError c =>
    constructor
    · show (if c = 429 then _ else _ : FetchResult).netCalls = _
      split <;> rfl
    · show (if c = 429 then _ else _ : FetchResult).sleeps = _
      split <;> rfl
  case connError m => exact ⟨rfl, rfl⟩

/-- A concrete association used in witnesses: every key holds
`Json.null` fetched at time 10. -/
def cConst : Cache := fun _ => some (Json.null, 10)

/-- C1: a cache key present with a timestamp younger than 300 seconds
is served from the cache (the cached payload comes back and no network
request is issued), and two fetch calls for the same key within the
expiration window, where the first network interaction (when there is
one) succeeds, issue at most one network request in total.  The key is
nonempty: a Python empty string is falsy, and only the gateway writes
the store, always under a truthy key. -/
theorem fetch_cache_hit_serves_cached
    (url K : String) (cache : Cache) (d d1 : Json)
    (nowA nowA2 t1 t1' t2 t2' : Nat) (netA net1 net2 : HttpResponse)
    (hK : K ≠ "") :
    ((∃ t, cache K = some (d, t) ∧ nowA - t < CACHE_EXPIRATION_TIME) →
      (fetch_data_from_api url (some K) nowA nowA2 netA cache).outcome = .value d ∧
      (fetch_data_from_api url (some K) nowA nowA2 netA cache).netCalls = []) ∧
    (net1 = .ok d1 → t2 - t1' < CACHE_EXPIRATION_TIME →
      ((fetch_data_from_api url (some K) t1 t1' net1 cache).netCalls ++
        (fetch_data_from_api url (some K) t2 t2' net2
          (fetch_data_from_api url (some K) t1 t1' net1 cache).cache).netCalls).length ≤ 1) := by
  constructor
  · rintro ⟨t, hc, hf⟩
    rw [fetch_hit_eq url (some K) nowA nowA2 netA cache d
      (lookupFresh_of_fresh K nowA cache d t hK hc hf)]
    exact ⟨rfl, rfl⟩
  · rintro rfl hwin
    cases hl : cacheLookupFresh (some K) t1 cache with
    | some c =>
      rw [fetch_hit_eq url (some K) t1 t1' (.ok d1) cache c hl]
      simpa using fetch_netCalls_length_le_one url (some K) t2 t2' net2 cache
    | none =>
      rw [fetch_miss_ok_eq url (some K) t1 t1' cache d1 hl]
      have h2 : cacheLookupFresh (some K) t2 (storeCache (some K) d1 t1' cache) = some d1 :=
        lookupFresh_of_fresh K t2 _ d1 t1' hK (storeCache_self K hK d1 t1' cache) hwin
      rw [fetch_hit_eq url (some K) t2 t2' net2 _ d1 h2]
      simp

/-- Witness for C1 at concrete inputs: a fresh hit at time 100 on an
entry stored at time 10, then a second call 49 seconds after the first
refresh. -/
theorem fetch_cache_hit_serves_cached_witness :
    ((fetch_data_from_api "u" (some "k") 100 101 (.ok Json.null) cConst).outcome
        = .value Json.null ∧
      (fetch_data_from_api "u" (some "k") 100 101 (.ok Json.null) cConst).netCalls = []) ∧
    ((fetch_data_from_api "u" (some "k") 100 101 (.ok Json.null) cConst).netCalls ++
      (fetch_data_from_api "u" (some "k") 150 151 (.ok Json.null)
        (fetch_data_from_api "u" (some "k") 100 101 (.ok Json.null) cConst).cache).netCalls).length
      ≤ 1 := by
  have h := fetch_cache_hit_serves_cached "u" "k" cConst Json.null Json.null
    100 101 100 101 150 151 (.ok Json.null) (.ok Json.null) (.ok Json.null) (by decide)
  exact ⟨h.1 ⟨10, rfl, by decide⟩, h.2 rfl (by decide)⟩

/-- C2: when the entry under a (nonempty) key is stale or absent, the
gateway performs one fresh network GET, and on upstream success it
returns the payload and overwrites the entry with the payload paired
with the store-time clock reading `now2`. -/
theorem fetch_stale_or_absent_refreshes
    (url K : String) (now now2 : Nat) (net : HttpResponse) (cache : Cache)
    (hK : K ≠ "")
    (hstale : ∀ d0 t, cache K = some (d0, t) → CACHE_EXPIRATION_TIME ≤ now - t) :
    (fetch_data_from_api url (some K) now now2 net cache).netCalls = [⟨url, none⟩] ∧
    ∀ d : Json, net = .ok d →
      (fetch_data_from_api url (some K) now now2 net cache).outcome = .value d ∧
      (fetch_data_from_api url (some K) now now2 net cache).cache K = some (d, now2) := by
  have hmiss := lookupFresh_of_stale K now cache hK hstale
  constructor
  · exact (fetch_miss_effects url (some K) now now2 net cache hmiss).1
  · rintro d rfl
    rw [fetch_miss_ok_eq url (some K) now now2 cache d hmiss]
    exact ⟨rfl, storeCache_self K hK d now2 cache⟩

/-- Witness for C2 at concrete inputs: key absent from the empty
cache, successful upstream response, store-time 7. -/
theorem fetch_stale_or_absent_refreshes_witness :
    (fetch_data_from_api "u" (some "k") 0 7 (.ok Json.null) cEmpty).netCalls = [⟨"u", none⟩] ∧
    ((fetch_data_from_api "u" (some "k") 0 7 (.ok Json.null) cEmpty).outcome
        = .value Json.null ∧
      (fetch_data_from_api "u" (some "k") 0 7 (.ok Json.null) cEmpty).cache "k"
        = some (Json.null, 7)) := by
  have h := fetch_stale_or_absent_refreshes "u" "k" 0 7 (.ok Json.null) cEmpty (by decide)
    (by intro d0 t hc; exact Option.noConfusion hc)
  exact ⟨h.1, h.2 Json.null rfl⟩

/-- C3: on a cache miss where the upstream answers HTTP 429, the
gateway returns the rate-limit error object carrying the retry-later
message, and the cache is left completely unchanged (no entry is
created or overwritten). -/
theorem fetch_http_429_rate_limited (url : String) (cache_key : Option String)
    (now now2 : Nat) (cache : Cache)
    (hmiss : cacheLookupFresh cache_key now cache = none) :
    (fetch_data_from_api url cache_key now now2 (.httpError 429) cache).outcome
      = .value (errObj rateLimitMsg) ∧
    (fetch_data_from_api url cache_key now now2 (.httpError 429) cache).cache = cache := by
  unfold fetch_data_from_api
  rw [hmiss]
  exact ⟨rfl, rfl⟩

/-- Witness for C3 at concrete inputs. -/
theorem fetch_http_429_rate_limited_witness :
    (fetch_data_from_api "u" (some "k") 0 1 (.httpError 429) cEmpty).outcome
      = .value (errObj rateLimitMsg) ∧
    (fetch_data_from_api "u" (some "k") 0 1 (.httpError 429) cEmpty).cache = cEmpty :=
  fetch_http_429_rate_limited "u" (some "k") 0 1 cEmpty rfl

/-- C10: a gateway call touches at most the entry of its own provided
key; with no key, on a fresh cache hit, or when the upstream
interaction does not succeed (HTTP error including 429, connection
error, unparseable body), the cache is left entirely unchanged — in
particular a hit does not refresh the stored timestamp. -/
theorem fetch_cache_frame (url : String) (cache_key : Option String) (now now2 : Nat)
    (net : HttpResponse) (cache : Cache) :
    (∀ k : String, cache_key ≠ some k →
      (fetch_data_from_api url cache_key now now2 net cache).cache k = cache k) ∧
    ((cacheLookupFresh cache_key now cache).isSome →
      (fetch_data_from_api url cache_key now now2 net cache).cache = cache) ∧
    ((∀ d : Json, net ≠ .ok d) →
      (fetch_data_from_api url cache_key now now2 net cache).cache = cache) ∧
    (cache_key = none →
      (fetch_data_from_api url cache_key now now2 net cache).cache = cache) := by
  cases hl : cacheLookupFresh cache_key now cache with
  | some c =>
    rw [fetch_hit_eq url cache_key now now2 net cache c hl]
    exact ⟨fun k _ => rfl, fun _ => rfl, fun _ => rfl, fun _ => rfl⟩
  | none =>
    cases net with
    | ok d =>
      rw [fetch_miss_ok_eq url cache_key now now2 cache d hl]
      refine ⟨fun k hk => storeCache_frame cache_key d now2 cache k hk, ?_, ?_, ?_⟩
      · intro hs
        simp at hs
      · intro hne
        exact absurd rfl (hne d)
      · rintro rfl
        rfl
    | badBody m =>
      have hb : (fetch_data_from_api url cache_key now now2 (.badBody m) cache).cache
          = cache := by
        unfold fetch_data_from_api
        rw [hl]
      rw [hb]
      exact ⟨fun k _ => rfl, fun _ => rfl, fun _ => rfl, fun _ => rfl⟩
    | httpError c =>
      have hh : (fetch_data_from_api url cache_key now now2 (.httpError c) cache).cache
          = cache := by
        unfold fetch_data_from_api
        rw [hl]
        show (if c = 429 then _ else _ : FetchResult).cache = _
        split <;> rfl
      rw [hh]
      exact ⟨fun k _ => rfl, fun _ => rfl, fun _ => rfl, fun _ => rfl⟩
    | connError m =>
      have hc : (fetch_data_from_api url cache_key now now2 (.connError m) cache).cache
          = cache := by
        unfold fetch_data_from_api
        rw [hl]
      rw [hc]
      exact ⟨fun k _ => rfl, fun _ => rfl, fun _ => rfl, fun _ => rfl⟩

/-- Witness for C10 at concrete inputs: a successful store under key
`a` leaves key `b` untouched, and a 500 upstream answer leaves the
whole cache untouched. -/
theorem fetch_cache_frame_witness :
    (fetch_data_from_api "u" (some "a") 0 5 (.ok Json.null) cEmpty).cache "b" = cEmpty "b" ∧
    (fetch_data_from_api "u" (some "a") 0 5 (.httpError 500) cEmpty).cache = cEmpty := by
  refine ⟨(fetch_cache_frame "u" (some "a") 0 5 (.ok Json.null) cEmpty).1 "b" (by decide), ?_⟩
  exact (fetch_cache_frame "u" (some "a") 0 5 (.httpError 500) cEmpty).2.2.1
    (by intro d h; exact HttpResponse.noConfusion h)

/-- A 2xx payload carrying an application-level `error` field, used as
the concrete counterexample payload. -/
def errorPayload : Json := Json.obj [("error", Json.str "upstream failure")]

/-- Counterexample to C4: the gateway caches a 2xx payload even when
the payload is an object containing an `error` field — lines 47-48 of
the source store `data` unconditionally, before any caller looks at
the `error` field.  Here the error payload ends up stored in the cache
entry for the key. -/
theorem fetch_caches_error_payload_cex :
    (fetch_data_from_api globalUrl (some "global_data") 0 5 (.ok errorPayload) cEmpty).cache
        "global_data" = some (errorPayload, 5) ∧
    pyIn "error" errorPayload = some true := by
  constructor
  · rw [fetch_miss_ok_eq globalUrl (some "global_data") 0 5 cEmpty errorPayload rfl]
    exact storeCache_self "global_data" (by decide) errorPayload 5 cEmpty
  · rfl

/-- C4 as amended: on a 2xx response whose parsed payload contains an
`error` field, the gateway returns the payload normally and stores it
in the cache entry for the key like any other success; the endpoint
layer (here `get_global_market_data`) then classifies the payload as
an upstream error and answers 500 — but the error payload remains
cached. -/
theorem fetch_error_payload_cached_then_500
    (url K : String) (now now2 : Nat) (cache : Cache) (data : Json)
    (hK : K ≠ "")
    (hmiss : cacheLookupFresh (some K) now cache = none)
    (herr : pyIn "error" data = some true) :
    ((fetch_data_from_api url (some K) now now2 (.ok data) cache).outcome = .value data ∧
      (fetch_data_from_api url (some K) now now2 (.ok data) cache).cache K
        = some (data, now2)) ∧
    (cacheLookupFresh (some "global_data") now cache = none →
      (get_global_market_data now now2 (.ok data) cache).status = 500 ∧
      (get_global_market_data now now2 (.ok data) cache).body = .json data ∧
      (get_global_market_data now now2 (.ok data) cache).cache "global_data"
        = some (data, now2)) := by
  constructor
  · rw [fetch_miss_ok_eq url (some K) now now2 cache data hmiss]
    exact ⟨rfl, storeCache_self K hK data now2 cache⟩
  · intro hg
    unfold get_global_market_data
    rw [fetch_miss_ok_eq globalUrl (some "global_data") now now2 cache data hg]
    have he : global_respond
        ⟨.value data, storeCache (some "global_data") data now2 cache, [⟨globalUrl, none⟩], [1]⟩
        = global_value_respond data (storeCache (some "global_data") data now2 cache)
            [⟨globalUrl, none⟩] := rfl
    rw [he]
    unfold global_value_respond
    rw [herr]
    exact ⟨rfl, rfl, storeCache_self "global_data" (by decide) data now2 cache⟩

/-- Witness for the amended C4 at concrete inputs. -/
theorem fetch_error_payload_cached_then_500_witness :
    ((fetch_data_from_api "u" (some "k") 0 5 (.ok errorPayload) cEmpty).outcome
        = .value errorPayload ∧
      (fetch_data_from_api "u" (some "k") 0 5 (.ok errorPayload) cEmpty).cache "k"
        = some (errorPayload, 5)) ∧
    ((get_global_market_data 0 5 (.ok errorPayload) cEmpty).status = 500 ∧
      (get_global_market_data 0 5 (.ok errorPayload) cEmpty).body = .json errorPayload ∧
      (get_global_market_data 0 5 (.ok errorPayload) cEmpty).cache "global_data"
        = some (errorPayload, 5)) := by
  have h := fetch_error_payload_cached_then_500 "u" "k" 0 5 cEmpty errorPayload
    (by decide) rfl rfl
  exact ⟨h.1, h.2 rfl⟩

/-- The oracle where both fallible drawing operations succeed. -/
def okOracle : RenderOracle := ⟨.ok, .ok⟩

/-- Counterexample to C5: the renderer has no empty-series guard — a
call with zero points produces an encoded image of an empty chart
instead of failing with an empty-series error. -/
theorem create_chart_image_empty_series_image_cex :
    (create_chart_image [] [] "Bitcoin Fiyat Grafiği (7 Gün)" "Fiyat (USD)" "#00d8ff"
        true okOracle).outcome
      = .image ⟨[], [], "Bitcoin Fiyat Grafiği (7 Gün)", "Fiyat (USD)", "#00d8ff", true⟩ := rfl

/-- C5 as amended: for every title, axis label and stroke color,
calling the chart renderer with a series of zero points does not fail
with an empty-series error: the source has no such guard, and when the
drawing operations succeed it returns an encoded image of an empty
chart. -/
theorem create_chart_image_no_empty_guard (title y_label color : String) (g : Bool) :
    (create_chart_image [] [] title y_label color g okOracle).outcome
      = .image ⟨[], [], title, y_label, color, g⟩ := rfl

/-- Witness for the amended C5 at concrete inputs. -/
theorem create_chart_image_no_empty_guard_witness :
    (create_chart_image [] [] "Başlık" "USD" "#ff6b6b" false okOracle).outcome
      = .image ⟨[], [], "Başlık", "USD", "#ff6b6b", false⟩ :=
  create_chart_image_no_empty_guard "Başlık" "USD" "#ff6b6b" false

/-- Counterexample to C8: on a cache miss the gateway issues
`requests.get(url)` carrying no timeout argument at all (the request
is preceded by a fixed `time.sleep(1)`); the network call is not
bounded by a 10-second timeout. -/
theorem fetch_get_without_timeout_cex :
    (fetch_data_from_api globalUrl (some "global_data") 0 1 (.ok Json.null) cEmpty).netCalls
      = [⟨globalUrl, none⟩] ∧
    (fetch_data_from_api globalUrl (some "global_data") 0 1 (.ok Json.null) cEmpty).sleeps
      = [1] ∧
    ((fetch_data_from_api globalUrl (some "global_data") 0 1
        (.ok Json.null) cEmpty).netCalls.map NetRequest.timeout) = [none] := by
  exact ⟨rfl, rfl, rfl⟩

/-- C8 as amended: on every cache miss the gateway sleeps a fixed 1
second and then performs the network GET with no timeout bound, so a
fetch call can wait on the upstream without bound. -/
theorem fetch_miss_sleep_and_unbounded_get (url : String) (cache_key : Option String)
    (now now2 : Nat) (net : HttpResponse) (cache : Cache)
    (hmiss : cacheLookupFresh cache_key now cache = none) :
    (fetch_data_from_api url cache_key now now2 net cache).netCalls = [⟨url, none⟩] ∧
    (fetch_data_from_api url cache_key now now2 net cache).sleeps = [1] :=
  fetch_miss_effects url cache_key now now2 net cache hmiss

/-- Witness for the amended C8 at concrete inputs. -/
theorem fetch_miss_sleep_and_unbounded_get_witness :
    (fetch_data_from_api "u" none 3 4 (.connError "dns") cEmpty).netCalls = [⟨"u", none⟩] ∧
    (fetch_data_from_api "u" none 3 4 (.connError "dns") cEmpty).sleeps = [1] :=
  fetch_miss_sleep_and_unbounded_get "u" none 3 4 (.connError "dns") cEmpty rfl

/-- Counterexample to C9: when `plt.savefig` raises, the exception
propagates out of `create_chart_image` before `plt.close(fig)` runs —
the allocated figure is not released on that exit path. -/
theorem create_chart_image_savefig_leak_cex :
    (create_chart_image [1] [Json.num 2] "t" "y" "c" true
        ⟨.ok, .raises "savefig hatası"⟩).outcome = .raised "savefig hatası" ∧
    (create_chart_image [1] [Json.num 2] "t" "y" "c" true
        ⟨.ok, .raises "savefig hatası"⟩).figClosed = false :=
  ⟨rfl, rfl⟩

/-- C9 as amended: the figure allocated by `create_chart_image` is
released exactly on the normal exit path — `figClosed` holds if and
only if neither `ax.plot` nor `plt.savefig` raises; on the raising
paths the error propagates with the figure unreleased. -/
theorem create_chart_image_close_iff_success (dates : List Int) (values : List Json)
    (title y_label color : String) (g : Bool) (o : RenderOracle) :
    (create_chart_image dates values title y_label color g o).figClosed = true ↔
      (o.plotResult = .ok ∧ o.savefigResult = .ok) := by
  obtain ⟨p, s⟩ := o
  cases p <;> cases s <;> simp [create_chart_image]

/-- Witness for the amended C9 at concrete inputs. -/
theorem create_chart_image_close_iff_success_witness :
    (create_chart_image [] [] "t" "y" "c" true okOracle).figClosed = true ↔
      (okOracle.plotResult = .ok ∧ okOracle.savefigResult = .ok) :=
  create_chart_image_close_iff_success [] [] "t" "y" "c" true okOracle

/-- C6: when the gateway returned a payload normally (and the payload
carries no `error` field), but the extracted series — `prices` for the
price endpoint, `market_caps` for the market-cap endpoint — is missing
from the payload or is an empty array, both chart endpoints answer 404
with a no-data error and never invoke the chart renderer on that
request. -/
theorem chart_endpoints_no_data_404 (coin_id : String) (days : Int) (now now2 : Nat)
    (net : HttpResponse) (cache : Cache) (oracle : RenderOracle) (data : Json)
    (hdays : days ∈ validDays)
    (hnoerr : pyIn "error" data = some false) :
    ((fetch_data_from_api (marketChartUrl coin_id days) (some (priceChartKey coin_id days))
        now now2 net cache).outcome = .value data →
      (pyGet data "prices" = some none ∨ pyGet data "prices" = some (some (Json.arr []))) →
      (get_coin_price_chart coin_id days now now2 net cache oracle).status = 404 ∧
      (get_coin_price_chart coin_id days now now2 net cache oracle).renderCalled = false) ∧
    ((fetch_data_from_api (marketChartUrl coin_id days) (some (mcapChartKey coin_id days))
        now now2 net cache).outcome = .value data →
      (pyGet data "market_caps" = some none ∨
        pyGet data "market_caps" = some (some (Json.arr []))) →
      (get_coin_market_cap_chart coin_id days now now2 net cache oracle).status = 404 ∧
      (get_coin_market_cap_chart coin_id days now now2 net cache oracle).renderCalled
        = false) := by
  constructor
  · intro hfetch hempty
    unfold get_coin_price_chart
    rw [if_pos hdays]
    obtain ⟨o, cch, nc, sl, hres⟩ : ∃ o cch nc sl,
        fetch_data_from_api (marketChartUrl coin_id days) (some (priceChartKey coin_id days))
          now now2 net cache = ⟨o, cch, nc, sl⟩ := ⟨_, _, _, _, rfl⟩
    rw [hres] at hfetch
    have ho : o = .value data := hfetch
    subst ho
    rw [hres]
    have hv : price_chart_respond coin_id days ⟨.value data, cch, nc, sl⟩ oracle
        = price_chart_value_respond coin_id days data cch nc oracle := rfl
    rw [hv]
    unfold price_chart_value_respond
    rw [hnoerr]
    rcases hempty with he | he <;> rw [he] <;> exact ⟨rfl, rfl⟩
  · intro hfetch hempty
    unfold get_coin_market_cap_chart
    rw [if_pos hdays]
    obtain ⟨o, cch, nc, sl, hres⟩ : ∃ o cch nc sl,
        fetch_data_from_api (marketChartUrl coin_id days) (some (mcapChartKey coin_id days))
          now now2 net cache = ⟨o, cch, nc, sl⟩ := ⟨_, _, _, _, rfl⟩
    rw [hres] at hfetch
    have ho : o = .value data := hfetch
    subst ho
    rw [hres]
    have hv : mcap_chart_respond coin_id days ⟨.value data, cch, nc, sl⟩ oracle
        = mcap_chart_value_respond coin_id days data cch nc oracle := rfl
    rw [hv]
    unfold mcap_chart_value_respond
    rw [hnoerr]
    rcases hempty with he | he <;> rw [he] <;> exact ⟨rfl, rfl⟩

/-- Witness for C6 at concrete inputs: a payload that is an object
with no fields at all (so both series are missing). -/
theorem chart_endpoints_no_data_404_witness :
    ((get_coin_price_chart "bitcoin" 7 0 1 (.ok (Json.obj [])) cEmpty okOracle).status = 404 ∧
      (get_coin_price_chart "bitcoin" 7 0 1 (.ok (Json.obj [])) cEmpty okOracle).renderCalled
        = false) ∧
    ((get_coin_market_cap_chart "bitcoin" 7 0 1 (.ok (Json.obj [])) cEmpty okOracle).status
        = 404 ∧
      (get_coin_market_cap_chart "bitcoin" 7 0 1
        (.ok (Json.obj [])) cEmpty okOracle).renderCalled = false) := by
  have h := chart_endpoints_no_data_404 "bitcoin" 7 0 1 (.ok (Json.obj [])) cEmpty okOracle
    (Json.obj []) (by decide) rfl
  exact ⟨h.1 rfl (Or.inl rfl), h.2 rfl (Or.inl rfl)⟩

/-- C7: for every `days` value outside the accepted set, both chart
endpoints answer 400 with the invalid-days message before any gateway
call — no network request is made, the cache is unchanged, and the
renderer is not invoked. -/
theorem chart_endpoints_invalid_days_400 (coin_id : String) (days : Int) (now now2 : Nat)
    (net : HttpResponse) (cache : Cache) (oracle : RenderOracle)
    (hdays : days ∉ validDays) :
    get_coin_price_chart coin_id days now now2 net cache oracle
      = ⟨400, .json (errObj invalidDaysMsg), cache, [], false⟩ ∧
    get_coin_market_cap_chart coin_id days now now2 net cache oracle
      = ⟨400, .json (errObj invalidDaysMsg), cache, [], false⟩ := by
  refine ⟨?_, ?_⟩
  · unfold get_coin_price_chart
    rw [if_neg hdays]
  · unfold get_coin_market_cap_chart
    rw [if_neg hdays]

/-- Witness for C7 at the concrete input `days = 13`. -/
theorem chart_endpoints_invalid_days_400_witness :
    get_coin_price_chart "bitcoin" 13 0 1 (.ok Json.null) cEmpty okOracle
      = ⟨400, .json (errObj invalidDaysMsg), cEmpty, [], false⟩ ∧
    get_coin_market_cap_chart "bitcoin" 13 0 1 (.ok Json.null) cEmpty okOracle
      = ⟨400, .json (errObj invalidDaysMsg), cEmpty, [], false⟩ :=
  chart_endpoints_invalid_days_400 "bitcoin" 13 0 1 (.ok Json.null) cEmpty okOracle (by decide)
